import Mathlib

/-!
Verification of the SnipAI clipboard/chat core.

This file gives a shallow embedding, in Lean 4, of the parts of the
SnipAI repository that the specification's testable properties are
about:

* `src/clipboard_handler.py` — `get_selected_text_via_copy`,
  `_save_clipboard`, `_restore_clipboard`;
* `src/chat_window.py` — `_send_message_event`,
  `_extract_enhanced_content`, `_update_gui_from_thread`,
  `_undo_action`, `_apply_text_to_source_window`,
  `_paste_enhanced_content`, `_set_input_state`;
* `src/llm_service.py` — the error-classification branch of
  `invoke_chain`.

Python strings are modelled as `String`/`List Char` (all inputs in the
claims are ASCII); the system clipboard, scheduled timers and simulated
keystrokes are modelled as explicit state (`World`); the foreign
environment's reaction to a simulated copy is an `AttemptOutcome`;
exceptions raised by simulated-interaction steps are modelled by
explicit fault parameters.
-/

/-! ## Python string helpers -/

/-- Python `\s` / `str.isspace` on the ASCII range (the inputs of all
claims are ASCII): space, tab, newline, carriage return, form feed,
vertical tab. -/
def pyIsSpace (c : Char) : Bool :=
  c == ' ' || c == '\t' || c == '\n' || c == '\r' || c == '\x0b' || c == '\x0c'

/-- Python `str.strip()` (no argument): drop leading and trailing
whitespace. -/
def pyStrip (s : List Char) : List Char :=
  ((s.dropWhile pyIsSpace).reverse.dropWhile pyIsSpace).reverse

/-- Test `isPrefixList pre s` : Boolean test that `pre` is a prefix of `s`
(Python `str.startswith`). -/
def isPrefixList : List Char → List Char → Bool
  | [], _ => true
  | _ :: _, [] => false
  | a :: as, b :: bs => a == b && isPrefixList as bs

/-- Python `needle in hay` substring test. -/
def containsSub (hay needle : List Char) : Bool :=
  match hay with
  | [] => isPrefixList needle []
  | _ :: rest => isPrefixList needle hay || containsSub rest needle

/-- Python `str.startswith` on `String`s. -/
def startsWithStr (s pre : String) : Bool :=
  isPrefixList pre.data s.data

/-! ## ClipboardGuard / SelectionCapture (`src/clipboard_handler.py`) -/

/-- What the foreign environment does in reaction to one simulated-copy
method of `get_selected_text_via_copy` (`src/clipboard_handler.py`
lines 63–79): the foreign application copies text `s` to the clipboard,
or nothing happens to the clipboard, or the keyboard simulation raises
(possibly after the application already copied, `writesThenRaises`). -/
inductive AttemptOutcome where
  | writes (s : String)
  | noChange
  | raises
  | writesThenRaises (s : String)
deriving Repr, DecidableEq

/-- Model of `_restore_clipboard` (`src/clipboard_handler.py` lines 31–42): if a
saved original exists, write it back to the clipboard; otherwise leave
the clipboard as it is.  Argument `orig` is the module-global
`_original_clipboard`, argument `clip` the current clipboard; the
result is the clipboard afterwards. -/
def restore_clipboard (orig : Option String) (clip : String) : String :=
  match orig with
  | some s => s
  | none => clip

/-- The `for i, method in enumerate(methods)` loop of
`get_selected_text_via_copy` (`src/clipboard_handler.py` lines 82–107)
together with its enclosing inner `try/except`: run the copy methods in
order; after each, read the clipboard (`current_content`) and stop with
it as soon as it is non-empty and differs from `original_content`; an
exception from a method is caught and ends the loop with
`selected_text = None`.  Returns `(selected_text, clipboard)`. -/
def run_copy_methods (clip before : String) :
    List AttemptOutcome → Option String × String
  | [] => (none, clip)
  | AttemptOutcome.raises :: _ => (none, clip)
  | AttemptOutcome.writesThenRaises s :: _ => (none, s)
  | AttemptOutcome.writes s :: rest =>
      if s ≠ "" ∧ s ≠ before then (some s, s)
      else run_copy_methods s before rest
  | AttemptOutcome.noChange :: rest =>
      if clip ≠ "" ∧ clip ≠ before then (some clip, clip)
      else run_copy_methods clip before rest

/-- Model of `get_selected_text_via_copy` (`src/clipboard_handler.py`
lines 44–113).  `before` is the clipboard content when the function starts
(so `_save_clipboard` stores `some before`); `attempts` is the
environment's reaction to each copy method.  The `finally:` block
always runs `_restore_clipboard`.  Returns
`(selected_text, clipboard after the function returns)`. -/
def get_selected_text_via_copy (before : String)
    (attempts : List AttemptOutcome) : Option String × String :=
  let original_content := before
  let r := run_copy_methods before original_content attempts
  (r.1, restore_clipboard (some original_content) r.2)

/-- The clipboard content observed after each executed copy attempt
(the `current_content` reads of the loop); a raising attempt ends the
executed trace, since the loop is aborted before that attempt's
clipboard read. -/
def clip_trace (clip : String) : List AttemptOutcome → List String
  | [] => []
  | AttemptOutcome.raises :: _ => []
  | AttemptOutcome.writesThenRaises _ :: _ => []
  | AttemptOutcome.writes s :: rest => s :: clip_trace s rest
  | AttemptOutcome.noChange :: rest => clip :: clip_trace clip rest

/-! ## PasteApplier (`src/chat_window.py`, `_apply_text_to_source_window`) -/

/-- One observable side effect of `_apply_text_to_source_window`
(`src/chat_window.py` lines 536–564): activating the source window,
sending Ctrl+V, extending the selection with `n` Shift+Left presses,
restoring focus to the previously active window. -/
inductive Effect where
  | activatedSource
  | pastedKeystroke
  | selectedSpan (n : Nat)
  | restoredFocus
deriving Repr, DecidableEq

/-- The state outside the chat window that
`_apply_text_to_source_window` manipulates: the system clipboard, the
list of pending `threading.Timer` delayed-restore callbacks (each
holding the text the operation wrote and the pre-paste clipboard
content it closed over), and the trace of simulated interactions. -/
structure World where
  clipboard : String
  timers : List (String × String)
  events : List Effect
deriving Repr, DecidableEq

/-- Which step of `_apply_text_to_source_window` raises, if any:
the `pyperclip.copy` write (caught by the outer `except`), or the
window activation / paste keystroke / selection keystrokes / focus
restoration (all caught by the inner `except`). -/
inductive PasteFault where
  | fNone
  | onCopy
  | onActivate
  | onPaste
  | onSelect
  | onFocusRestore
deriving Repr, DecidableEq

/-- Model of `_apply_text_to_source_window` (`src/chat_window.py`
lines 520–591).  Returns the Python function's boolean result and the world
afterwards.  Faithful control flow: empty text returns `False` before
touching the clipboard; the clipboard write happens before the
source-window check; the inner `except` returns `False` without
restoring the clipboard or scheduling a timer; only the fault-free path
schedules the 10-second delayed restoration and returns `True`. -/
def apply_text_to_source_window (w : World) (text_content : String)
    (source_window : Option Unit) (fault : PasteFault) : Bool × World :=
  if text_content = "" then (false, w)
  else
    let original_content := w.clipboard
    if fault = PasteFault.onCopy then (false, w)
    else
      let w1 : World := { w with clipboard := text_content }
      match source_window with
      | none => (false, w1)
      | some _ =>
        match fault with
        | PasteFault.onActivate => (false, w1)
        | PasteFault.onPaste =>
            (false, { w1 with events := w1.events ++ [Effect.activatedSource] })
        | PasteFault.onSelect =>
            (false, { w1 with events :=
              w1.events ++ [Effect.activatedSource, Effect.pastedKeystroke] })
        | PasteFault.onFocusRestore =>
            (false, { w1 with events := w1.events ++
              [Effect.activatedSource, Effect.pastedKeystroke,
               Effect.selectedSpan (min text_content.length 1000)] })
        | _ =>
            (true, { w1 with
              events := w1.events ++
                [Effect.activatedSource, Effect.pastedKeystroke,
                 Effect.selectedSpan (min text_content.length 1000),
                 Effect.restoredFocus],
              timers := w1.timers ++ [(text_content, original_content)] })

/-- The body of the nested `restore_clipboard` closure scheduled with
`threading.Timer(10.0, …)` (`src/chat_window.py` lines 570–577):
when the timer fires with the clipboard holding `clip_now`, the
clipboard is reset to `original_content` only if it still equals
`text_content`; otherwise it is left alone.  Returns the clipboard
after the timer fired. -/
def restore_clipboard_timer (clip_now text_content original_content : String) :
    String :=
  if clip_now = text_content then original_content else clip_now

/-! ## ConversationPipeline state (`src/chat_window.py`) -/

/-- The message roles used by `_append_to_chat` /
`_append_to_chat_with_id` (`src/chat_window.py` lines 767–784). -/
inductive Role where
  | user
  | assistant
  | error
  | status
  | system
  | errorTitle
deriving Repr, DecidableEq

/-- The mutable per-session state of `ChatWindow` that the claims are
about (`src/chat_window.py`): the text of the input entry, whether the
input entry and send button are enabled (`_set_input_state`), the chat
turns, `self.enhanced_content`, `self.text_stack`, the undo button
state, whether the paste frame is shown, the stored source window, and
—for the single-flight bookkeeping— how many background worker threads
have been started (`threading.Thread(...).start()` in
`_send_message_event`) and how many results have been delivered back
via `self.after(0, self._update_gui_from_thread, …)`. -/
structure ChatState where
  input_field : String
  input_enabled : Bool
  turns : List (Role × String)
  enhanced_content : Option String
  text_stack : List String
  undo_enabled : Bool
  paste_visible : Bool
  source_window : Option Unit
  dispatched : Nat
  delivered : Nat
deriving Repr, DecidableEq

/-- Model of `ChatWindow.__init__` (`src/chat_window.py` lines 23–250): the
input starts enabled and empty, `self.text_stack = [initial_text]`,
`self.enhanced_content = initial_text`, the paste frame is hidden and
the undo button disabled. -/
def initChatState (initial_text : String) (src : Option Unit) : ChatState :=
  { input_field := "", input_enabled := true, turns := [],
    enhanced_content := some initial_text, text_stack := [initial_text],
    undo_enabled := false, paste_visible := false, source_window := src,
    dispatched := 0, delivered := 0 }

/-- The user typing `s` into the input entry.  A Tk entry in state
`disabled` (set by `_set_input_state("disabled")`,
`src/chat_window.py` lines 868–876) ignores keyboard input, so typing
only has an effect while the input is enabled. -/
def type_input (st : ChatState) (s : String) : ChatState :=
  if st.input_enabled then { st with input_field := st.input_field ++ s }
  else st

/-- Model of `_send_message_event` (`src/chat_window.py` lines 327–367): read
and strip the entry text; return immediately if it is empty; otherwise
clear the entry, append a `user` turn and the `"Thinking..."` `status`
placeholder, disable the input, hide the paste frame, clear
`self.enhanced_content`, and start exactly one background worker
thread (`_get_initial_response` or `_get_ai_response` — both dispatch
one thread, so the distinction does not matter to the pipeline
state). -/
def send_message_event (st : ChatState) : ChatState :=
  if String.mk (pyStrip st.input_field.data) = "" then st
  else
    { st with input_field := "",
              turns := st.turns ++
                [(Role.user, String.mk (pyStrip st.input_field.data)),
                 (Role.status, "Thinking...")],
              input_enabled := false,
              paste_visible := false,
              enhanced_content := none,
              dispatched := st.dispatched + 1 }

/-- Python `message.split(":", 1)`: split at the first colon, if any. -/
def splitOnceColon : List Char → Option (List Char × List Char)
  | [] => none
  | ':' :: rest => some ([], rest)
  | c :: rest =>
      match splitOnceColon rest with
      | some p => some (c :: p.1, p.2)
      | none => none

/-- Python `error_type.replace("_", " ")` (the replaced pattern is a
single character). -/
def replaceUnderscores (s : List Char) : List Char :=
  s.map (fun c => if c == '_' then ' ' else c)

/-- The `message.startswith(("API_KEY_ERROR:", "CONNECTION_ERROR:",
"NO_RESPONSE_ERROR:"))` test of `_update_gui_from_thread`
(`src/chat_window.py` line 462). -/
def errCheck (message : String) : Bool :=
  startsWithStr message "API_KEY_ERROR:" ||
  startsWithStr message "CONNECTION_ERROR:" ||
  startsWithStr message "NO_RESPONSE_ERROR:"

/-- The categorized-error display of `_update_gui_from_thread`
(`src/chat_window.py` lines 463–470): split the message at the first
colon; the part before it, with underscores replaced by spaces, becomes
the `error_title` turn text (behind a warning sign); the part after it,
stripped, becomes the `error` turn text (or `"Unknown error"` when
there is no colon). -/
def categorized_error_turns (message : String) : List (Role × String) :=
  let p := splitOnceColon message.data
  let error_type := String.mk (replaceUnderscores
    (match p with | some q => q.1 | none => message.data))
  let error_message := match p with
    | some q => String.mk (pyStrip q.2)
    | none => "Unknown error"
  [(Role.errorTitle, "⚠️ " ++ error_type), (Role.error, error_message)]

/-- Model of `_update_gui_from_thread` (`src/chat_window.py` lines 456–497).
`_remove_last_message` deletes the trailing (single-line) `status`
placeholder, modelled as dropping the last turn; the `delivered`
counter records that the pending background result has now been
consumed.  An `assistant` message starting with one of the three error
prefixes is displayed as a categorized error pair and the input is
re-enabled.  Otherwise the message is appended with its role; a
non-empty `enhanced_content` is pushed onto `text_stack` when it
differs from `self.enhanced_content`, becomes the new
`self.enhanced_content` and reveals the paste frame; finally the input
is re-enabled unless the role is `error`. -/
def update_gui_from_thread (st : ChatState) (message : String)
    (role : Role) (ec : Option String) : ChatState :=
  let st1 : ChatState :=
    { st with turns := st.turns.dropLast, delivered := st.delivered + 1 }
  if role = Role.assistant ∧ errCheck message = true then
    { st1 with turns := st1.turns ++ categorized_error_turns message,
               input_enabled := true }
  else
    let st2 : ChatState := { st1 with turns := st1.turns ++ [(role, message)] }
    let st3 : ChatState :=
      match ec with
      | some e =>
          if e ≠ "" then
            let st' : ChatState :=
              if some e ≠ st2.enhanced_content then
                { st2 with text_stack := st2.text_stack ++ [e],
                           undo_enabled := true }
              else st2
            { st' with enhanced_content := some e, paste_visible := true }
          else st2
      | none => st2
    if role = Role.error then st3 else { st3 with input_enabled := true }

/-- Model of `_paste_enhanced_content` (`src/chat_window.py` lines 600–626):
with no (or empty, hence falsy) `self.enhanced_content` only the paste
button flashes; otherwise `_apply_text_to_source_window` runs and, on
success, the content is appended to `text_stack` unless it already is
the top (`self.text_stack[-1]`, defined since the stack always holds at
least the initial text), and the undo button is enabled when the stack
has more than one element. -/
def paste_enhanced_content (st : ChatState) (w : World) (fault : PasteFault) :
    ChatState × World :=
  match st.enhanced_content with
  | none => (st, w)
  | some ec =>
    if ec = "" then (st, w)
    else
      let r := apply_text_to_source_window w ec st.source_window fault
      if r.1 then
        let st1 : ChatState :=
          if st.text_stack.getLastD "" ≠ ec then
            { st with text_stack := st.text_stack ++ [ec] }
          else st
        let st2 : ChatState :=
          if st1.text_stack.length > 1 then { st1 with undo_enabled := true }
          else st1
        (st2, r.2)
      else (st, r.2)

/-- Model of `_undo_action` (`src/chat_window.py` lines 499–518): with more than
one stacked version, pop the top, make the previous version the current
`self.enhanced_content`, disable the undo button when only the original
remains, and apply the new current version to the source window via
`_apply_text_to_source_window` (whose result is ignored). -/
def undo_action (st : ChatState) (w : World) (fault : PasteFault) :
    ChatState × World :=
  if st.text_stack.length > 1 then
    let stack' := st.text_stack.dropLast
    let ec := stack'.getLastD ""
    let st' : ChatState :=
      { st with text_stack := stack', enhanced_content := some ec,
                undo_enabled :=
                  if stack'.length = 1 then false else st.undo_enabled }
    let r := apply_text_to_source_window w ec st.source_window fault
    (st', r.2)
  else (st, w)

/-! ## Provider-error classification (`src/llm_service.py`, `invoke_chain`) -/

/-- The `"api key" in error_str or "authentication" in error_str or
"unauthorized" in error_str or "auth" in error_str` test of
`invoke_chain` (`src/llm_service.py` line 134), on the lowercased
error text. -/
def authMatch (e : String) : Bool :=
  let s := e.data.map Char.toLower
  containsSub s "api key".data || containsSub s "authentication".data ||
  containsSub s "unauthorized".data || containsSub s "auth".data

/-- The `"timeout" … or "connection" … or "network" in error_str` test
of `invoke_chain` (`src/llm_service.py` line 136). -/
def connMatch (e : String) : Bool :=
  let s := e.data.map Char.toLower
  containsSub s "timeout".data || containsSub s "connection".data ||
  containsSub s "network".data

/-- The `"no response" in error_str` test of `invoke_chain`
(`src/llm_service.py` line 138). -/
def norespMatch (e : String) : Bool :=
  containsSub (e.data.map Char.toLower) "no response".data

/-- The `except` branch of `invoke_chain` (`src/llm_service.py` lines
128–141): classify the provider failure text `e` (Python `str(e)`)
into one of the three tagged error strings, or the default
`"ERROR: …"` reply when no key term matches. -/
def classify_error (e : String) : String :=
  if authMatch e then
    "API_KEY_ERROR: Your API key appears to be invalid or has expired. Please check your API key in the settings."
  else if connMatch e then
    "CONNECTION_ERROR: Unable to connect to the LLM service. Please check your internet connection."
  else if norespMatch e then
    "NO_RESPONSE_ERROR: No response received from the LLM service. The service might be experiencing high load."
  else
    "ERROR: " ++ e ++ "\n\nPlease try again in a moment."

/-! ## ResponseParser (`src/chat_window.py`, `_extract_enhanced_content`)

The Python code matches the regular expression
`` ```json\s*({.*?"enhanced_content"\s*:.*?})\s*``` `` with `re.DOTALL`
(so `.` also matches newlines).  The matcher below is a backtracking
matcher specialized to exactly this pattern, reproducing Python's
leftmost-match rule and its greedy (`\s*`, longest first) and lazy
(`.*?`, shortest first) quantifier semantics. -/

/-- Greedy `p*`: try consuming as many `p`-characters as possible
first, backtracking one character at a time into the continuation. -/
def greedyStar {α : Type} (p : Char → Bool) (s : List Char)
    (k : List Char → Option α) : Option α :=
  match s with
  | [] => k []
  | c :: rest =>
      if p c then
        match greedyStar p rest k with
        | some r => some r
        | none => k (c :: rest)
      else k (c :: rest)

/-- Lazy `.*?` under `re.DOTALL`: try the continuation at the shortest
extension first, then consume one more (arbitrary) character. -/
def lazyStar {α : Type} (s : List Char) (k : List Char → Option α) :
    Option α :=
  match k s with
  | some r => some r
  | none =>
      match s with
      | [] => none
      | _ :: rest => lazyStar rest k

/-- Literal matching: returns the remaining input when `lit` is a
prefix of `s`. -/
def eatLit (lit s : List Char) : Option (List Char) :=
  match lit, s with
  | [], s => some s
  | _ :: _, [] => none
  | a :: as, b :: bs => if a == b then eatLit as bs else none

/-- The opening literal `` ```json `` of the pattern. -/
def litFenceJson : List Char := "```json".data

/-- The closing literal `` ``` `` of the pattern. -/
def litFence : List Char := "```".data

/-- The literal `"enhanced_content"` (with its quotes) inside the
capture group of the pattern. -/
def litEnhKey : List Char := "\"enhanced_content\"".data

/-- Anchored match of the whole pattern at the start of `s`: on
success, returns the text captured by group 1 (the `{…}` object) and
the input remaining after the whole match. -/
def matchAt (s : List Char) : Option (List Char × List Char) :=
  match eatLit litFenceJson s with
  | none => none
  | some s1 =>
    greedyStar pyIsSpace s1 (fun s2 =>
      match s2 with
      | '\x7b' :: s3 =>
        lazyStar s3 (fun s4 =>
          match eatLit litEnhKey s4 with
          | none => none
          | some s5 =>
            greedyStar pyIsSpace s5 (fun s6 =>
              match s6 with
              | ':' :: s7 =>
                lazyStar s7 (fun s8 =>
                  match s8 with
                  | '\x7d' :: s9 =>
                    greedyStar pyIsSpace s9 (fun s10 =>
                      match eatLit litFence s10 with
                      | none => none
                      | some s11 =>
                          some (s2.take (s2.length - s9.length), s11))
                  | _ => none)
              | _ => none))
        | _ => none)

/-- Model of `re.search`: the leftmost match of the pattern; returns the group-1
capture of the first (leftmost) match. -/
def searchGroup : List Char → Option (List Char)
  | [] =>
      match matchAt [] with
      | some p => some p.1
      | none => none
  | s@(_ :: rest) =>
      match matchAt s with
      | some p => some p.1
      | none => searchGroup rest

/-- Model of `re.sub(json_pattern, '', text, flags=re.DOTALL)`: delete every
(leftmost, non-overlapping) match of the pattern, continuing the scan
after each deleted match.  The fuel argument (instantiated with the
input length plus one) bounds the recursion; every loop iteration
consumes at least one character, so the fuel never runs out. -/
def subPatternAux : Nat → List Char → List Char
  | 0, s => s
  | _ + 1, [] => []
  | fuel + 1, s@(c :: rest) =>
      match matchAt s with
      | some p => subPatternAux fuel p.2
      | none => c :: subPatternAux fuel rest

/-- All matches of the fenced-JSON pattern removed from `s`. -/
def subPattern (s : List Char) : List Char :=
  subPatternAux (s.length + 1) s

/-- Model of `re.sub(r'\n{3,}', '\n\n', …)`: each run of three or more newlines
becomes exactly two; shorter runs are untouched (the `\n{3,}`
quantifier is greedy, so a maximal run is replaced as a whole).  Fuel
as in `subPatternAux`. -/
def collapseNewlinesAux : Nat → List Char → List Char
  | 0, s => s
  | _ + 1, [] => []
  | fuel + 1, c :: rest =>
      if c == '\n' then
        let run := 1 + (rest.takeWhile (fun d => d == '\n')).length
        let rest' := rest.dropWhile (fun d => d == '\n')
        (if run ≥ 3 then ['\n', '\n'] else List.replicate run '\n') ++
          collapseNewlinesAux fuel rest'
      else c :: collapseNewlinesAux fuel rest

/-- Runs of three or more newlines collapsed to two. -/
def collapseNewlines (s : List Char) : List Char :=
  collapseNewlinesAux (s.length + 1) s

/-! JSON decoding.  `json.loads` is library code (not part of this
repository); the claims only exercise it on objects whose values are
strings, so it is modelled as a strict parser for a top-level JSON
object with string keys and string values: standard escape sequences
(except `\uXXXX`), no unescaped control characters, no trailing data.
Anything outside this subset is a decode failure, which
`_extract_enhanced_content` treats like any `json.loads` exception. -/

/-- JSON string body after the opening quote: returns the decoded
characters and the input after the closing quote. -/
def jsonStringChars : List Char → Option (List Char × List Char)
  | [] => none
  | '"' :: rest => some ([], rest)
  | '\\' :: e :: rest =>
      let dec : Option Char :=
        if e == '"' then some '"'
        else if e == '\\' then some '\\'
        else if e == '/' then some '/'
        else if e == 'n' then some '\n'
        else if e == 't' then some '\t'
        else if e == 'r' then some '\r'
        else if e == 'b' then some (Char.ofNat 8)
        else if e == 'f' then some (Char.ofNat 12)
        else none
      match dec with
      | none => none
      | some c =>
          match jsonStringChars rest with
          | some (cs, r) => some (c :: cs, r)
          | none => none
  | '\\' :: [] => none
  | c :: rest =>
      if c.toNat < 32 then none
      else
        match jsonStringChars rest with
        | some (cs, r) => some (c :: cs, r)
        | none => none

/-- Leading JSON whitespace removed. -/
def skipWs (s : List Char) : List Char :=
  s.dropWhile (fun c => c == ' ' || c == '\t' || c == '\n' || c == '\r')

/-- One `"key" : "value"` member; returns the pair and the rest. -/
def parseMember (s : List Char) : Option ((String × String) × List Char) :=
  match skipWs s with
  | '"' :: r0 =>
      match jsonStringChars r0 with
      | none => none
      | some (k, r1) =>
          match skipWs r1 with
          | ':' :: r2 =>
              match skipWs r2 with
              | '"' :: r3 =>
                  match jsonStringChars r3 with
                  | none => none
                  | some (v, r4) => some ((String.mk k, String.mk v), r4)
              | _ => none
          | _ => none
  | _ => none

/-- The members after the object's opening brace, including the closing
brace and the no-trailing-data check of `json.loads`. -/
def parseMembers : Nat → List Char → Option (List (String × String))
  | 0, _ => none
  | fuel + 1, s =>
      match parseMember s with
      | none => none
      | some (kv, r) =>
          match skipWs r with
          | ',' :: r2 =>
              match parseMembers fuel r2 with
              | some kvs => some (kv :: kvs)
              | none => none
          | '\x7d' :: r3 => if skipWs r3 = [] then some [kv] else none
          | _ => none

/-- Model of `json.loads` on the captured group, restricted to the modelled
subset (a top-level object with string values). -/
def json_loads_obj (s : List Char) : Option (List (String × String)) :=
  match skipWs s with
  | '\x7b' :: r =>
      match skipWs r with
      | '\x7d' :: r2 => if skipWs r2 = [] then some [] else none
      | _ => parseMembers (s.length + 1) r
  | _ => none

/-- Python `dict` lookup after `json.loads`: on duplicate keys the last
occurrence wins. -/
def dictLookup (data : List (String × String)) (key : String) :
    Option String :=
  match data.reverse.find? (fun kv => kv.1 == key) with
  | some kv => some kv.2
  | none => none

/-- Model of `_extract_enhanced_content` (`src/chat_window.py` lines 424–454):
search for the fenced-JSON pattern; decode the captured object; if it
has an `"enhanced_content"` field, the display text is the input with
every pattern match removed, stripped, and with newline runs of three
or more collapsed to two, paired with the decoded field value.  On no
match, a decode failure (a swallowed `json.loads` exception) or a
missing field, the input is returned verbatim with no suggestion. -/
def extract_enhanced_content (text : String) : String × Option String :=
  match searchGroup text.data with
  | none => (text, none)
  | some g =>
    match json_loads_obj g with
    | none => (text, none)
    | some data =>
      match dictLookup data "enhanced_content" with
      | none => (text, none)
      | some ec =>
          let cleaned := pyStrip (subPattern text.data)
          (String.mk (collapseNewlines cleaned), some ec)

/-! ## Theorems -/

/-- Claim C1: for every pre-capture clipboard value (including the
empty string), after `get_selected_text_via_copy` returns — whether it
succeeded, whether no copy strategy yielded a clipboard change, or
whether a simulated interaction step raised — the system clipboard
content equals its pre-capture value (the `finally:` block always runs
`_restore_clipboard`). -/
theorem capture_restores_clipboard (before : String)
    (attempts : List AttemptOutcome) :
    (get_selected_text_via_copy before attempts).2 = before := rfl

/-- The copy-method loop returns exactly the first observed clipboard
value that is non-empty and differs from the saved original. -/
theorem run_copy_methods_find (before : String) :
    ∀ (attempts : List AttemptOutcome) (clip : String),
      (run_copy_methods clip before attempts).1
        = (clip_trace clip attempts).find?
            (fun c => !(c == "") && !(c == before)) := by
  intro attempts
  induction attempts with
  | nil => intro clip; rfl
  | cons a rest ih =>
      intro clip
      cases a with
      | raises => rfl
      | writesThenRaises s => rfl
      | writes s =>
          by_cases h : s ≠ "" ∧ s ≠ before
          · show (if s ≠ "" ∧ s ≠ before then (some s, s)
                  else run_copy_methods s before rest).1
              = List.find? _ (s :: clip_trace s rest)
            rw [if_pos h, List.find?_cons_of_pos _ (by simp [h.1, h.2])]
          · show (if s ≠ "" ∧ s ≠ before then (some s, s)
                  else run_copy_methods s before rest).1
              = List.find? _ (s :: clip_trace s rest)
            rw [if_neg h, List.find?_cons_of_neg _ (by
              rcases not_and_or.mp h with h1 | h1 <;> simp at h1 <;> simp [h1])]
            exact ih s
      | noChange =>
          by_cases h : clip ≠ "" ∧ clip ≠ before
          · show (if clip ≠ "" ∧ clip ≠ before then (some clip, clip)
                  else run_copy_methods clip before rest).1
              = List.find? _ (clip :: clip_trace clip rest)
            rw [if_pos h, List.find?_cons_of_pos _ (by simp [h.1, h.2])]
          · show (if clip ≠ "" ∧ clip ≠ before then (some clip, clip)
                  else run_copy_methods clip before rest).1
              = List.find? _ (clip :: clip_trace clip rest)
            rw [if_neg h, List.find?_cons_of_neg _ (by
              rcases not_and_or.mp h with h1 | h1 <;> simp at h1 <;> simp [h1])]
            exact ih clip

/-- Claim C3: `get_selected_text_via_copy` tries its copy strategies in
order and returns the clipboard content observed after the first
executed attempt for which the clipboard is non-empty and differs from
the pre-capture value `before`; if no executed attempt satisfies that
condition (in particular when a simulated step raises, which aborts the
loop) it returns `none`, and it never returns the empty string. -/
theorem capture_first_success (before : String)
    (attempts : List AttemptOutcome) :
    (get_selected_text_via_copy before attempts).1
      = (clip_trace before attempts).find?
          (fun c => !(c == "") && !(c == before))
    ∧ (get_selected_text_via_copy before attempts).1 ≠ some "" := by
  have hchar : (get_selected_text_via_copy before attempts).1
      = (clip_trace before attempts).find?
          (fun c => !(c == "") && !(c == before)) :=
    run_copy_methods_find before attempts before
  refine ⟨hchar, ?_⟩
  rw [hchar]
  intro hempty
  have hp := List.find?_some hempty
  simp at hp

/-- Claim C4 (amended): on the reply
`"Here:\n```json\n{"enhanced_content": "X"}\n```\nDone."` the parser
decodes the `enhanced_content` field as `"X"`, removes the entire
fenced block, collapses runs of three or more newlines to two and trims
surrounding whitespace; since removing the block leaves exactly two
consecutive newlines (one on each side of the block), the display text
is `"Here:\n\nDone."`. -/
theorem parser_round_trip :
    extract_enhanced_content
        "Here:\n```json\n\x7b\"enhanced_content\": \"X\"\x7d\n```\nDone."
      = ("Here:\n\nDone.", some "X") := by
  rfl

/-- Claim C4 counterexample: on that same reply the parser does not
return the display text `"Here:\nDone."` stated by the claim (the two
newlines left by removing the fenced block are not collapsed to one,
because only runs of three or more newlines are collapsed). -/
theorem parser_round_trip_cex :
    extract_enhanced_content
        "Here:\n```json\n\x7b\"enhanced_content\": \"X\"\x7d\n```\nDone."
      ≠ ("Here:\nDone.", some "X") := by
  intro h
  rw [show extract_enhanced_content
        "Here:\n```json\n\x7b\"enhanced_content\": \"X\"\x7d\n```\nDone."
      = ("Here:\n\nDone.", some "X") from rfl] at h
  simp at h

/-- Claim C6: a successful paste schedules a delayed restoration
holding exactly the text it wrote and the pre-paste clipboard content,
and the scheduled `restore_clipboard` timer restores the pre-paste
content only if the clipboard at firing time still equals the text this
paste wrote; clipboard content the user wrote in the interim is never
overwritten. -/
theorem delayed_restore_nonclobber (w : World) (t : String) (h : t ≠ "") :
    (apply_text_to_source_window w t (some ()) PasteFault.fNone).1 = true
    ∧ (apply_text_to_source_window w t (some ()) PasteFault.fNone).2.timers
        = w.timers ++ [(t, w.clipboard)]
    ∧ (∀ clipNow : String, clipNow ≠ t →
        restore_clipboard_timer clipNow t w.clipboard = clipNow)
    ∧ restore_clipboard_timer t t w.clipboard = w.clipboard := by
  refine ⟨?_, ?_, ?_, ?_⟩
  · simp [apply_text_to_source_window, h]
  · simp [apply_text_to_source_window, h]
  · intro clipNow hne
    simp [restore_clipboard_timer, hne]
  · simp [restore_clipboard_timer]

/-- Witness for `delayed_restore_nonclobber` at a concrete paste. -/
theorem delayed_restore_nonclobber_witness :
    ("new text" : String) ≠ ""
    ∧ ("user copy" : String) ≠ "new text"
    ∧ restore_clipboard_timer "user copy" "new text" "orig" = "user copy" :=
  ⟨by decide, by decide,
    (delayed_restore_nonclobber ⟨"orig", [], []⟩ "new text"
        (by decide)).2.2.1 "user copy" (by decide)⟩

/-- Claim C7 (the code contradicts it): when the source-window
activation step raises during `_apply_text_to_source_window` (step 3,
and likewise for any fault in steps 3–6), the function returns `False`
with the clipboard still holding the injected text `"X"` instead of the
pre-paste content `"ORIG"`, and no delayed restoration has been
scheduled — the clipboard guard is left unresolved and the pre-paste
content is lost. -/
theorem paste_fault_clobbers_clipboard :
    apply_text_to_source_window ⟨"ORIG", [], []⟩ "X" (some ())
        PasteFault.onActivate
      = (false, ⟨"X", [], []⟩) := by
  rfl

/-- Claim C9: invoking `_apply_text_to_source_window` with non-empty
text but no source-window handle overwrites the clipboard with that
text, then returns `False` without simulating any paste (no events are
added), and neither restores the pre-paste content nor schedules a
delayed restoration (the timer list is unchanged): the prior clipboard
content is lost. -/
theorem apply_no_source_loses_clipboard (w : World) (t : String)
    (h : t ≠ "") :
    apply_text_to_source_window w t none PasteFault.fNone
      = (false, { w with clipboard := t }) := by
  simp [apply_text_to_source_window, h]

/-- Witness for `apply_no_source_loses_clipboard` at a concrete call. -/
theorem apply_no_source_loses_clipboard_witness :
    ("X" : String) ≠ ""
    ∧ apply_text_to_source_window ⟨"ORIG", [], []⟩ "X" none PasteFault.fNone
        = (false, ⟨"X", [], []⟩) :=
  ⟨by decide,
    apply_no_source_loses_clipboard ⟨"ORIG", [], []⟩ "X" (by decide)⟩

/-- Claim C10: whenever `_undo_action` runs with more than one stacked
version, it pops the top, makes the previous version current, and
immediately invokes `_apply_text_to_source_window` on that new current
version (the resulting world is exactly the world `apply` produces);
in particular, with a source window and no fault, the clipboard is
written with the new current version, the paste and span-selection
keystrokes are simulated, focus is restored, and a delayed clipboard
restoration is scheduled — undo is not merely a history operation. -/
theorem undo_applies_to_source (st : ChatState) (w : World)
    (f : PasteFault) (hlen : 1 < st.text_stack.length) :
    ((undo_action st w f).1.text_stack = st.text_stack.dropLast
      ∧ (undo_action st w f).1.enhanced_content
          = some (st.text_stack.dropLast.getLastD "")
      ∧ (undo_action st w f).2
          = (apply_text_to_source_window w
              (st.text_stack.dropLast.getLastD "") st.source_window f).2)
    ∧ (st.source_window = some () → f = PasteFault.fNone →
        st.text_stack.dropLast.getLastD "" ≠ "" →
        (undo_action st w f).2.clipboard = st.text_stack.dropLast.getLastD ""
        ∧ (undo_action st w f).2.timers
            = w.timers ++ [(st.text_stack.dropLast.getLastD "", w.clipboard)]
        ∧ (undo_action st w f).2.events
            = w.events ++
              [Effect.activatedSource, Effect.pastedKeystroke,
               Effect.selectedSpan
                 (min (st.text_stack.dropLast.getLastD "").length 1000),
               Effect.restoredFocus]) := by
  constructor
  · refine ⟨?_, ?_, ?_⟩ <;> simp [undo_action, hlen]
  · intro hsrc hf hne
    subst hf
    simp only [List.getLastD_eq_getLast?] at hne
    refine ⟨?_, ?_, ?_⟩ <;>
      simp [undo_action, hlen, hsrc, apply_text_to_source_window, hne]

/-- Witness for `undo_applies_to_source` at a concrete state with two
stacked versions. -/
theorem undo_applies_to_source_witness :
    (1 < (["hello world", "bonjour le monde"] : List String).length)
    ∧ (undo_action
        { initChatState "hello world" (some ()) with
            text_stack := ["hello world", "bonjour le monde"],
            enhanced_content := some "bonjour le monde",
            undo_enabled := true }
        ⟨"clip", [], []⟩ PasteFault.fNone).2.clipboard = "hello world" :=
  ⟨by decide,
    ((undo_applies_to_source
        { initChatState "hello world" (some ()) with
            text_stack := ["hello world", "bonjour le monde"],
            enhanced_content := some "bonjour le monde",
            undo_enabled := true }
        ⟨"clip", [], []⟩ PasteFault.fNone (by decide)).2
      (by decide) rfl (by decide)).1⟩

/-! ## Single-flight: reachable session states -/

/-- The session states reachable from a freshly opened chat window by
typing, submitting, background-result delivery (which can only happen
while a dispatched worker is outstanding), pasting and undoing. -/
inductive Reachable (t0 : String) (src : Option Unit) : ChatState → Prop where
  | init : Reachable t0 src (initChatState t0 src)
  | typed (st : ChatState) (s : String) :
      Reachable t0 src st → Reachable t0 src (type_input st s)
  | sent (st : ChatState) :
      Reachable t0 src st → Reachable t0 src (send_message_event st)
  | result (st : ChatState) (m : String) (r : Role) (ec : Option String) :
      Reachable t0 src st → st.delivered < st.dispatched →
      Reachable t0 src (update_gui_from_thread st m r ec)
  | pasted (st : ChatState) (w : World) (f : PasteFault) :
      Reachable t0 src st →
      Reachable t0 src (paste_enhanced_content st w f).1
  | undone (st : ChatState) (w : World) (f : PasteFault) :
      Reachable t0 src st →
      Reachable t0 src (undo_action st w f).1

/-- The single-flight invariant of the pipeline state: at most one
background worker is outstanding; whenever the input is enabled nothing
is outstanding; and whenever the input is disabled the entry is empty
(it was cleared at dispatch and a disabled entry ignores typing). -/
def ChatInv (st : ChatState) : Prop :=
  st.delivered ≤ st.dispatched ∧ st.dispatched ≤ st.delivered + 1 ∧
  (st.input_enabled = false → st.input_field = "") ∧
  (st.input_enabled = true → st.dispatched = st.delivered)

/-- Lemma: `_paste_enhanced_content` does not touch the input entry, the
input-enabled state or the dispatch bookkeeping. -/
theorem paste_preserves_pipeline_fields (st : ChatState) (w : World)
    (f : PasteFault) :
    ((paste_enhanced_content st w f).1).input_field = st.input_field
    ∧ ((paste_enhanced_content st w f).1).input_enabled = st.input_enabled
    ∧ ((paste_enhanced_content st w f).1).dispatched = st.dispatched
    ∧ ((paste_enhanced_content st w f).1).delivered = st.delivered := by
  unfold paste_enhanced_content
  rcases st.enhanced_content with _ | ec
  · simp
  · simp only
    split
    · simp
    · split
      · split <;> split <;> simp
      · simp

/-- Lemma: `_undo_action` does not touch the input entry, the input-enabled
state or the dispatch bookkeeping. -/
theorem undo_preserves_pipeline_fields (st : ChatState) (w : World)
    (f : PasteFault) :
    ((undo_action st w f).1).input_field = st.input_field
    ∧ ((undo_action st w f).1).input_enabled = st.input_enabled
    ∧ ((undo_action st w f).1).dispatched = st.dispatched
    ∧ ((undo_action st w f).1).delivered = st.delivered := by
  unfold undo_action
  split <;> simp

/-- Lemma: `_update_gui_from_thread` consumes exactly one delivery, leaves the
dispatch counter and the input entry alone. -/
theorem update_gui_preserves_fields (st : ChatState) (m : String)
    (r : Role) (ec : Option String) :
    (update_gui_from_thread st m r ec).delivered = st.delivered + 1
    ∧ (update_gui_from_thread st m r ec).dispatched = st.dispatched
    ∧ (update_gui_from_thread st m r ec).input_field = st.input_field := by
  unfold update_gui_from_thread
  split
  · simp
  · rcases ec with _ | e <;> dsimp only <;> split_ifs <;> simp

/-- Every reachable session state satisfies the single-flight
invariant. -/
theorem reachable_inv {t0 : String} {src : Option Unit} {st : ChatState}
    (h : Reachable t0 src st) : ChatInv st := by
  induction h with
  | init => exact ⟨by simp [initChatState], by simp [initChatState],
      fun _ => rfl, fun _ => rfl⟩
  | typed st s _ ih =>
      obtain ⟨h1, h2, h3, h4⟩ := ih
      unfold type_input
      split
      · next hen =>
          exact ⟨h1, h2, fun hfalse => by simp [hen] at hfalse,
            fun _ => h4 hen⟩
      · exact ⟨h1, h2, h3, h4⟩
  | sent st _ ih =>
      obtain ⟨h1, h2, h3, h4⟩ := ih
      unfold send_message_event
      split
      · exact ⟨h1, h2, h3, h4⟩
      · next hne =>
          have hen : st.input_enabled = true := by
            by_contra hcon
            have hf : st.input_field = "" :=
              h3 (by simpa using eq_false_of_ne_true hcon)
            apply hne
            rw [hf]
            rfl
          have heq := h4 hen
          exact ⟨by simp; omega, by simp; omega, fun _ => rfl,
            fun hcon => by simp at hcon⟩
  | result st m r ec _ hout ih =>
      obtain ⟨h1, h2, h3, h4⟩ := ih
      obtain ⟨g1, g2, g3⟩ := update_gui_preserves_fields st m r ec
      have hdis : st.input_enabled = false := by
        by_contra hcon
        have := h4 (by simpa using hcon)
        omega
      have hf : st.input_field = "" := h3 hdis
      refine ⟨by omega, by omega, ?_, ?_⟩
      · intro _
        rw [g3, hf]
      · intro _
        omega
  | pasted st w f _ ih =>
      obtain ⟨h1, h2, h3, h4⟩ := ih
      obtain ⟨g1, g2, g3, g4⟩ := paste_preserves_pipeline_fields st w f
      exact ⟨by omega, by omega,
        fun hd => by rw [g1]; exact h3 (by rw [← g2]; exact hd),
        fun he => by rw [g3, g4]; exact h4 (by rw [← g2]; exact he)⟩
  | undone st w f _ ih =>
      obtain ⟨h1, h2, h3, h4⟩ := ih
      obtain ⟨g1, g2, g3, g4⟩ := undo_preserves_pipeline_fields st w f
      exact ⟨by omega, by omega,
        fun hd => by rw [g1]; exact h3 (by rw [← g2]; exact hd),
        fun he => by rw [g3, g4]; exact h4 (by rw [← g2]; exact he)⟩

/-- Claim C2: in any reachable session state with a dispatched
background worker still outstanding (`AwaitingResponse`), submitting
again is a no-op — no second background dispatch, no additional `User`
turn, the state is unchanged — and at most one worker is ever
outstanding. -/
theorem single_flight (t0 : String) (src : Option Unit) (st : ChatState)
    (hr : Reachable t0 src st) (hawait : st.delivered < st.dispatched) :
    send_message_event st = st
    ∧ (send_message_event st).dispatched = st.dispatched
    ∧ (send_message_event st).turns = st.turns
    ∧ st.dispatched ≤ st.delivered + 1 := by
  obtain ⟨h1, h2, h3, h4⟩ := reachable_inv hr
  have hdis : st.input_enabled = false := by
    by_contra hcon
    have := h4 (by simpa using hcon)
    omega
  have hf : st.input_field = "" := h3 hdis
  have hid : send_message_event st = st := by
    unfold send_message_event
    rw [if_pos (by rw [hf]; rfl)]
  exact ⟨hid, by rw [hid], by rw [hid], h2⟩

/-- Witness for `single_flight`: a concrete awaiting state, reached by
typing `"hi"` and submitting it. -/
theorem single_flight_witness :
    (send_message_event (type_input (initChatState "sel" none) "hi")).delivered
      < (send_message_event (type_input (initChatState "sel" none) "hi")).dispatched
    ∧ send_message_event
        (send_message_event (type_input (initChatState "sel" none) "hi"))
      = send_message_event (type_input (initChatState "sel" none) "hi") :=
  ⟨by decide,
    (single_flight "sel" none
      (send_message_event (type_input (initChatState "sel" none) "hi"))
      (Reachable.sent _ (Reachable.typed _ "hi" Reachable.init))
      (by decide)).1⟩

/-! ## Push de-duplication (claim C5) -/

/-- A reachable session state in which the stack top is `"A"` but
`self.enhanced_content` is `None`: the suggestion `"A"` arrived and was
pushed, then a second message was submitted (`_send_message_event`
resets `self.enhanced_content` to `None`). -/
def dedup_cex_state : ChatState :=
  send_message_event (type_input
    (update_gui_from_thread
      (send_message_event (type_input (initChatState "orig" none) "improve"))
      "done" Role.assistant (some "A"))
    "again")

/-- Claim C5 counterexample: in `dedup_cex_state` the current top of
the history is `"A"`, yet delivering the suggestion `"A"` again appends
it a second time — the suggestion-arrival push compares against
`self.enhanced_content` (reset to `None` by the submit), not against
the stack top, so pushing the same value as `current()` grows the
history. -/
theorem push_dedup_cex :
    dedup_cex_state.text_stack = ["orig", "A"]
    ∧ dedup_cex_state.text_stack.getLastD "" = "A"
    ∧ (update_gui_from_thread dedup_cex_state "done2" Role.assistant
        (some "A")).text_stack = ["orig", "A", "A"] := by
  decide

/-- Claim C5 (amended): the suggestion-arrival push appends exactly
when the suggestion differs from the `self.enhanced_content` field (so
delivering the same suggestion twice in a row without an intervening
submit leaves the history unchanged after the first), while the
paste-path push de-duplicates against the actual stack top. -/
theorem push_dedup_amended (st : ChatState) (m e : String) (w : World)
    (f : PasteFault) (he : e ≠ "") (hm : errCheck m = false) :
    ((update_gui_from_thread st m Role.assistant (some e)).text_stack
       = if st.enhanced_content = some e then st.text_stack
         else st.text_stack ++ [e])
    ∧ ((update_gui_from_thread
          (update_gui_from_thread st m Role.assistant (some e))
          m Role.assistant (some e)).text_stack
       = (update_gui_from_thread st m Role.assistant (some e)).text_stack)
    ∧ (st.enhanced_content = some e → st.text_stack.getLastD "" = e →
        ((paste_enhanced_content st w f).1).text_stack = st.text_stack) := by
  have hbr : ¬(Role.assistant = Role.assistant ∧ errCheck m = true) := by
    simp [hm]
  have hone : ∀ s : ChatState,
      (update_gui_from_thread s m Role.assistant (some e)).text_stack
        = if s.enhanced_content = some e then s.text_stack
          else s.text_stack ++ [e] := by
    intro s
    unfold update_gui_from_thread
    rw [if_neg hbr]
    dsimp only
    rw [if_pos he]
    by_cases hd : some e = s.enhanced_content
    · rw [if_neg (by simp [hd])]
      simp [hd.symm]
    · rw [if_pos hd]
      have hne : ¬(s.enhanced_content = some e) := fun hcon => hd hcon.symm
      simp [hne]
  have hec : (update_gui_from_thread st m Role.assistant
      (some e)).enhanced_content = some e := by
    unfold update_gui_from_thread
    rw [if_neg hbr]
    dsimp only
    rw [if_pos he]
    split <;> simp
  refine ⟨hone st, ?_, ?_⟩
  · rw [hone (update_gui_from_thread st m Role.assistant (some e)), hec]
    simp
  · intro hce htop
    unfold paste_enhanced_content
    rw [hce]
    dsimp only
    rw [if_neg he]
    split
    · split_ifs with hA hB <;> simp_all
    · rfl

/-- Witness for `push_dedup_amended`: delivering suggestion `"A"` to a
fresh window appends it to the history. -/
theorem push_dedup_amended_witness :
    ("A" : String) ≠ "" ∧ errCheck "ok" = false ∧
    (update_gui_from_thread (initChatState "o" none) "ok" Role.assistant
        (some "A")).text_stack
      = if (initChatState "o" none).enhanced_content = some "A"
        then (initChatState "o" none).text_stack
        else (initChatState "o" none).text_stack ++ ["A"] :=
  ⟨by decide, by decide,
    (push_dedup_amended (initChatState "o" none) "ok" "A" ⟨"c", [], []⟩
      PasteFault.fNone (by decide) (by decide)).1⟩

/-! ## Provider-error surfacing (claim C8) -/

/-- Modelled from the amended claim: how a provider failure with error
text `e` is surfaced.  The three matched categories become a
categorized pair of turns — an `error_title` turn whose human-readable
title is derived from the category code (underscores replaced by
spaces, behind a warning sign) and an `error` turn with the category's
message — while an unmatched failure is appended as an ordinary
`assistant` turn whose text embeds the raw exception string. -/
def spec_error_surface (e : String) : List (Role × String) :=
  if authMatch e then
    [(Role.errorTitle, "⚠️ API KEY ERROR"),
     (Role.error, "Your API key appears to be invalid or has expired. Please check your API key in the settings.")]
  else if connMatch e then
    [(Role.errorTitle, "⚠️ CONNECTION ERROR"),
     (Role.error, "Unable to connect to the LLM service. Please check your internet connection.")]
  else if norespMatch e then
    [(Role.errorTitle, "⚠️ NO RESPONSE ERROR"),
     (Role.error, "No response received from the LLM service. The service might be experiencing high load.")]
  else
    [(Role.assistant, "ERROR: " ++ e ++ "\n\nPlease try again in a moment.")]

/-- The default (unmatched) classification result never carries one of
the three categorized error prefixes. -/
theorem errCheck_default (e : String) :
    errCheck ("ERROR: " ++ e ++ "\n\nPlease try again in a moment.") = false := by
  have hdata : ("ERROR: " ++ e ++ "\n\nPlease try again in a moment.").data
      = 'E' :: 'R' :: 'R' :: 'O' :: 'R' :: ':' :: ' ' ::
        (e.data ++ "\n\nPlease try again in a moment.".data) := by
    rw [String.data_append, String.data_append, List.append_assoc]
    rfl
  unfold errCheck startsWithStr
  rw [hdata]
  rw [show "API_KEY_ERROR:".data = 'A' :: "PI_KEY_ERROR:".data from rfl]
  rw [show "CONNECTION_ERROR:".data = 'C' :: "ONNECTION_ERROR:".data from rfl]
  rw [show "NO_RESPONSE_ERROR:".data = 'N' :: "O_RESPONSE_ERROR:".data from rfl]
  simp [isPrefixList]

/-- Claim C8 (amended): delivering the classified reply for any
provider failure text `e` surfaces it exactly as `spec_error_surface`
describes — the three matched categories as a categorized error pair
with a title derived from the category, the unmatched default as an
ordinary `assistant` turn embedding the raw exception string. -/
theorem provider_error_surface (st : ChatState) (e : String) :
    (update_gui_from_thread st (classify_error e) Role.assistant none).turns
      = st.turns.dropLast ++ spec_error_surface e := by
  unfold classify_error spec_error_surface
  by_cases h1 : authMatch e
  · rw [if_pos h1, if_pos h1]
    unfold update_gui_from_thread
    rw [if_pos ⟨rfl, by decide⟩]
    rw [show categorized_error_turns
        "API_KEY_ERROR: Your API key appears to be invalid or has expired. Please check your API key in the settings."
      = [(Role.errorTitle, "⚠️ API KEY ERROR"),
         (Role.error, "Your API key appears to be invalid or has expired. Please check your API key in the settings.")]
      from by decide]
  · rw [if_neg h1, if_neg h1]
    by_cases h2 : connMatch e
    · rw [if_pos h2, if_pos h2]
      unfold update_gui_from_thread
      rw [if_pos ⟨rfl, by decide⟩]
      rw [show categorized_error_turns
          "CONNECTION_ERROR: Unable to connect to the LLM service. Please check your internet connection."
        = [(Role.errorTitle, "⚠️ CONNECTION ERROR"),
           (Role.error, "Unable to connect to the LLM service. Please check your internet connection.")]
        from by decide]
    · rw [if_neg h2, if_neg h2]
      by_cases h3 : norespMatch e
      · rw [if_pos h3, if_pos h3]
        unfold update_gui_from_thread
        rw [if_pos ⟨rfl, by decide⟩]
        rw [show categorized_error_turns
            "NO_RESPONSE_ERROR: No response received from the LLM service. The service might be experiencing high load."
          = [(Role.errorTitle, "⚠️ NO RESPONSE ERROR"),
             (Role.error, "No response received from the LLM service. The service might be experiencing high load.")]
          from by decide]
      · rw [if_neg h3, if_neg h3]
        unfold update_gui_from_thread
        rw [if_neg (by simp [errCheck_default e])]
        simp

/-- A reachable session state awaiting its first reply: `"q"` was
typed and submitted. -/
def provider_cex_state : ChatState :=
  send_message_event (type_input (initChatState "orig" none) "q")

/-- Claim C8 counterexample: the provider failure text `"boom"` matches
no key term, is classified into the default `"ERROR: …"` reply, and is
surfaced as an ordinary `assistant` turn whose text embeds the raw
exception string — no categorized `Error` turn is produced. -/
theorem provider_error_cex :
    classify_error "boom" = "ERROR: boom\n\nPlease try again in a moment."
    ∧ (update_gui_from_thread provider_cex_state (classify_error "boom")
        Role.assistant none).turns
      = [(Role.user, "q"),
         (Role.assistant, "ERROR: boom\n\nPlease try again in a moment.")] := by
  decide
